import Mathlib

set_option maxRecDepth 100000

/-!
# Verification of `serverchan_notifier.py` (ServerChan_Notifier)

A shallow embedding of the single source file `src/serverchan_notifier.py`:
a client wrapper around the ServerChan push-notification HTTP API.

Modelling conventions:
* Python `Optional[str]` arguments become `Option String`; Python truthiness
  of an optional string (`if desp:`) is the boolean `strTruthy`.
* The form-encoded payload built by `ServerChanNotifier.send` (lines 60-75)
  becomes an association list `List (String × String)` in insertion order.
* The HTTP round trip (`requests.post` + `raise_for_status` + `response.json()`,
  lines 78-86) is an external effect; it is modelled by a `TransportResult`
  oracle: either one of the exception classes the `except` clauses at lines
  95-103 distinguish was raised (carrying its stringified form), or a parsed
  JSON value was obtained.
* Parsed JSON values are the inductive `Json`; Python dictionary operations
  `result.get(k)` and `result[k]` are `lookupJ` and `pySubscript` (the latter
  returns the stringified exception when Python would raise).
* `datetime.now().strftime(...)` and the `f"{execution_time:.2f}"` float
  rendering are impure/floating-point; they enter the model as the already
  formatted strings `now` and `execution_time : Option String`.  No claim
  depends on the contents of those strings.
-/

/-- Python truthiness of an optional string: `None` and `""` are falsy. -/
def strTruthy : Option String → Bool
  | none => false
  | some s => !s.isEmpty

/-- Python `a or b` for an optional string `a` and a string default `b`
(used at line 217 `message or "未知错误"` and line 231 `task_name or func.__name__`). -/
def pyOrElse (a : Option String) (b : String) : String :=
  if strTruthy a then a.getD "" else b

/-- The `ServerChanNotifier` instance state set up by `__init__` (lines 22-32). -/
structure ServerChanNotifier where
  sendkey : String
  default_channel : Option String
  api_url : String
deriving DecidableEq

/-- `ServerChanNotifier.__init__` (lines 22-32): stores the key and default
channel and computes the endpoint URL from the key. -/
def ServerChanNotifier.init (sendkey : String) (default_channel : Option String) :
    ServerChanNotifier :=
  { sendkey := sendkey
    default_channel := default_channel
    api_url := "https://sctapi.ftqq.com/" ++ sendkey ++ ".send" }

/-- First-match lookup in a string-valued association list (Python dict access
on the payload; keys inserted by `send` are distinct literals). -/
def lookupS (l : List (String × String)) (k : String) : Option String :=
  (l.find? (fun p => p.1 == k)).map (fun p => p.2)

/-- The request payload built by `ServerChanNotifier.send`, lines 60-75:
`title` truncated to 32 characters always present; `desp`, `short` (truncated
to 64), `channel` (per-call, else instance default), `noip` (marker `"1"` when
true) and `openid` present only when truthy. -/
def send_payload (self : ServerChanNotifier) (title : String)
    (desp short channel : Option String) (noip : Bool) (openid : Option String) :
    List (String × String) :=
  [("title", title.take 32)]
  ++ (if strTruthy desp then [("desp", desp.getD "")] else [])
  ++ (if strTruthy short then [("short", (short.getD "").take 64)] else [])
  ++ (if strTruthy channel then [("channel", channel.getD "")]
      else if strTruthy self.default_channel then
        [("channel", self.default_channel.getD "")]
      else [])
  ++ (if noip then [("noip", "1")] else [])
  ++ (if strTruthy openid then [("openid", openid.getD "")] else [])

/-- Parsed JSON values, as `response.json()` produces them
(Python `None`/`bool`/`int`/`str`/`list`/`dict`; non-integral numbers do not
occur in any claim and are not modelled). -/
inductive Json where
  | null : Json
  | bool (b : Bool) : Json
  | num (n : Int) : Json
  | str (s : String) : Json
  | arr (xs : List Json) : Json
  | obj (fields : List (String × Json)) : Json

/-- Dictionary lookup `fields[k]` by first match (keys coming out of
`json.loads` are distinct). -/
def lookupJ (fields : List (String × Json)) (k : String) : Option Json :=
  (fields.find? (fun p => p.1 == k)).map (fun p => p.2)

/-- Python name of the type of a JSON value (as it appears in Python error
messages such as `AttributeError`). -/
def pyTypeName : Json → String
  | Json.null => "NoneType"
  | Json.bool _ => "bool"
  | Json.num _ => "int"
  | Json.str _ => "str"
  | Json.arr _ => "list"
  | Json.obj _ => "dict"

/-- Python subscript `j[k]` with a string key: the value on a dictionary that
has the key; otherwise `Except.error` carrying `str(e)` of the exception
Python raises (`KeyError` stringifies to the quoted key, the others to their
message). -/
def pySubscript (j : Json) (k : String) : Except String Json :=
  match j with
  | Json.obj fields =>
    match lookupJ fields k with
    | some v => Except.ok v
    | none => Except.error ("'" ++ k ++ "'")
  | Json.str _ => Except.error "string indices must be integers"
  | Json.arr _ => Except.error "list indices must be integers or slices, not str"
  | Json.null => Except.error "'NoneType' object is not subscriptable"
  | Json.bool _ => Except.error "'bool' object is not subscriptable"
  | Json.num _ => Except.error "'int' object is not subscriptable"

/-- Python `result.get("code") == 0` on the looked-up value (`None` when the
key is absent): integer `0` compares equal to `0`, and so does `False`
(Python booleans are integers); every other JSON value compares unequal. -/
def pyEqZero : Option Json → Bool
  | some (Json.num n) => n == 0
  | some (Json.bool b) => !b
  | _ => false

/-- The exception classes distinguished by the `except` clauses of `send`
(lines 95-103), each carrying the stringified exception `str(e)`:
`requests.exceptions.RequestException`, `json.JSONDecodeError`, and any other
`Exception`. -/
inductive PyErr where
  | requestException (msg : String) : PyErr
  | jsonDecodeError (msg : String) : PyErr
  | other (msg : String) : PyErr

/-- Outcome of the HTTP round trip (lines 78-86): either one of the modelled
exception classes was raised by `requests.post`, `raise_for_status` or
`response.json()`, or a parsed JSON value was obtained. -/
inductive TransportResult where
  | raised (e : PyErr) : TransportResult
  | parsed (j : Json) : TransportResult

/-- The uniform local-failure dictionary `{"code": -1, "message": m}` returned
by the `except` clauses (lines 97, 100, 103). -/
def sentinelResult (m : String) : Json :=
  Json.obj [("code", Json.num (-1)), ("message", Json.str m)]

/-- The part of `send` from line 77 on: dispatch on the transport outcome.
On a parsed value it mirrors lines 86-93: `result.get("code")` (an
`AttributeError` on a non-dictionary lands in the `except Exception` clause),
on code 0 the logging access `result['data']['pushid']` (line 89) whose
`KeyError`/`TypeError` also lands in `except Exception`, then `return result`;
each `except` clause returns the sentinel dictionary with its message prefix
around `str(e)`. -/
def handleResponse (r : TransportResult) : Json :=
  match r with
  | TransportResult.raised (PyErr.requestException m) =>
      sentinelResult ("网络请求错误: " ++ m)
  | TransportResult.raised (PyErr.jsonDecodeError m) =>
      sentinelResult ("JSON解析错误: " ++ m)
  | TransportResult.raised (PyErr.other m) =>
      sentinelResult ("未知错误: " ++ m)
  | TransportResult.parsed j =>
    match j with
    | Json.obj fields =>
      if pyEqZero (lookupJ fields "code") then
        match pySubscript (Json.obj fields) "data" with
        | Except.error m => sentinelResult ("未知错误: " ++ m)
        | Except.ok d =>
          match pySubscript d "pushid" with
          | Except.error m => sentinelResult ("未知错误: " ++ m)
          | Except.ok _ => Json.obj fields
      else Json.obj fields
    | _ =>
      sentinelResult
        ("未知错误: '" ++ pyTypeName j ++ "' object has no attribute 'get'")

/-- `ServerChanNotifier.send` (lines 34-103): builds the payload, performs the
HTTP round trip (the external environment `http` maps the transmitted payload
to a transport outcome) and normalizes the outcome.  Total: every exception in
the send path is consumed by an `except` clause, so a dictionary is always
returned. -/
def ServerChanNotifier.send (self : ServerChanNotifier) (title : String)
    (desp short channel : Option String) (noip : Bool) (openid : Option String)
    (http : List (String × String) → TransportResult) : Json :=
  handleResponse (http (send_payload self title desp short channel noip openid))

/-- The `"\n**执行时长**: {execution_time:.2f} 秒"` line appended when
`execution_time is not None` (lines 152-153, 189-190); the float is carried as
its formatted rendering. -/
def execTimeSuffix : Option String → String
  | none => ""
  | some t => "\n**执行时长**: " ++ t ++ " 秒"

/-- Title built by `notify_success` (line 143). -/
def notify_success_title (task_name : String) : String :=
  "✅ " ++ task_name ++ " 执行成功"

/-- Body built by `notify_success` (lines 145-156), with `now` the formatted
`datetime.now()` timestamp: the template, then the execution-time line when
the time is present, then the additional-info block when `additional_info`
is truthy. -/
def notify_success_desp (task_name now : String) (execution_time : Option String)
    (additional_info : Option String) : String :=
  "\n## 🎉 任务执行成功\n\n**任务名称**: " ++ task_name
    ++ "\n\n**完成时间**: " ++ now ++ "\n"
  ++ execTimeSuffix execution_time
  ++ (if strTruthy additional_info then
        "\n**详细信息**:\n" ++ additional_info.getD ""
      else "")

/-- The `(title, desp)` pair `notify_success` (lines 125-158) passes to
`self.send`. -/
def notify_success_message (task_name now : String) (execution_time : Option String)
    (additional_info : Option String) : String × String :=
  (notify_success_title task_name,
   notify_success_desp task_name now execution_time additional_info)

/-- Title built by `notify_error` (line 178). -/
def notify_error_title (task_name : String) : String :=
  "❌ " ++ task_name ++ " 执行失败"

/-- Body built by `notify_error` (lines 180-190). -/
def notify_error_desp (task_name now error_message : String)
    (execution_time : Option String) : String :=
  "\n## ⚠️ 任务执行失败\n\n**任务名称**: " ++ task_name
    ++ "\n\n**失败时间**: " ++ now
    ++ "\n\n**错误信息**: " ++ error_message ++ "\n"
  ++ execTimeSuffix execution_time

/-- The `(title, desp)` pair `notify_error` (lines 160-192) passes to
`self.send`. -/
def notify_error_message (task_name now error_message : String)
    (execution_time : Option String) : String × String :=
  (notify_error_title task_name,
   notify_error_desp task_name now error_message execution_time)

/-- `notify_completion` (lines 194-217): dispatches to `notify_success` with
`message` as the additional info when `success`, else to `notify_error` with
`message or "未知错误"`; returns the `(title, desp)` pair handed to `send`. -/
def notify_completion_message (task_name now : String) (success : Bool)
    (execution_time : Option String) (message : Option String) : String × String :=
  if success then
    notify_success_message task_name now execution_time message
  else
    notify_error_message task_name now (pyOrElse message "未知错误") execution_time

/-- One notification attempt made by the `task_notifier` wrapper: the
`(title, desp)` pair of the `notify_success` or `notify_error` call. -/
inductive NotificationAttempt where
  | success (title desp : String) : NotificationAttempt
  | failure (title desp : String) : NotificationAttempt

/-- One invocation of the wrapper produced by `task_notifier` (lines 219-252).
The wrapped callable's behaviour on its arguments is the `outcome`
(`Except.ok` a returned value, `Except.error` a raised exception of an
arbitrary type `E`, whose `str(e)` is `strE`); `elapsed` is the formatted
`time.time() - start_time`.  Returns the wrapper's own outcome (re-raise or
the original result) together with the notification attempts made, in order:
on normal return one `notify_success` with the fixed info line, on a raised
exception one `notify_error` with `str(e)`, then `raise e`. -/
def task_notifier_run {E A : Type} (strE : E → String) (task_name : Option String)
    (func_name now elapsed : String) (outcome : Except E A) :
    Except E A × List NotificationAttempt :=
  let actual_task_name := pyOrElse task_name func_name
  match outcome with
  | Except.ok a =>
      (Except.ok a,
       [NotificationAttempt.success (notify_success_title actual_task_name)
          (notify_success_desp actual_task_name now (some elapsed)
            (some ("函数 " ++ func_name ++ " 执行成功")))])
  | Except.error e =>
      (Except.error e,
       [NotificationAttempt.failure (notify_error_title actual_task_name)
          (notify_error_desp actual_task_name now (strE e) (some elapsed))])

/-- `init_global_notifier` (lines 257-261): creates a fresh instance, stores
it in the module-level global `_global_notifier` (the first component is the
new value of the global) and returns it (the second component). -/
def init_global_notifier (sendkey : String) (default_channel : Option String) :
    Option ServerChanNotifier × ServerChanNotifier :=
  let n := ServerChanNotifier.init sendkey default_channel
  (some n, n)

/-- `get_global_notifier` (lines 263-267): raises `ValueError` with the
configuration message when the global is `None`, else returns the stored
instance. -/
def get_global_notifier (st : Option ServerChanNotifier) :
    Except String ServerChanNotifier :=
  match st with
  | none => Except.error "全局通知器未初始化，请先调用 init_global_notifier()"
  | some n => Except.ok n

/-- Events touching the module-level global `_global_notifier`
(lines 254-267): a call to `init_global_notifier` or to
`get_global_notifier`. -/
inductive GEvent where
  | init (sendkey : String) (default_channel : Option String) : GEvent
  | get : GEvent

/-- Whether an event is a `get_global_notifier` call (leaves the global
unchanged). -/
def GEvent.isGet : GEvent → Bool
  | GEvent.init _ _ => false
  | GEvent.get => true

/-- `true` when the event list contains no `init_global_notifier` call. -/
def allGets (evts : List GEvent) : Bool :=
  evts.all GEvent.isGet

/-- Effect of one event on the global `_global_notifier`:
`init_global_notifier` overwrites it, `get_global_notifier` does not
write. -/
def gstep (st : Option ServerChanNotifier) : GEvent → Option ServerChanNotifier
  | GEvent.init k dc => (init_global_notifier k dc).1
  | GEvent.get => st

/-- The value of `_global_notifier` after a list of events, starting from the
module-load value `None` (line 255). -/
def runEvents (evts : List GEvent) : Option ServerChanNotifier :=
  evts.foldl gstep none

/-- A result dictionary is a local-failure result: code is the sentinel `-1`
and the message is a non-empty string. -/
def isSentinelFailure (j : Json) : Prop :=
  ∃ m, j = sentinelResult m ∧ m ≠ ""

theorem append_ne_empty_left (a b : String) (h : a ≠ "") : a ++ b ≠ "" := by
  intro he
  apply h
  have hd := congrArg String.data he
  rw [String.data_append] at hd
  have h0 : a.data = [] := (List.append_eq_nil.mp hd).1
  cases a
  simp_all

theorem string_append_assoc (a b c : String) : a ++ b ++ c = a ++ (b ++ c) := by
  apply String.ext
  simp [String.data_append]

theorem take_of_length_le (s : String) (n : Nat) (h : s.length ≤ n) : s.take n = s := by
  rw [String.take_eq, List.take_of_length_le h]

theorem strTruthy_some_of_ne (s : String) (h : s ≠ "") : strTruthy (some s) = true := by
  have he : s.isEmpty = false := by
    rw [Bool.eq_false_iff]
    intro hb
    exact h ((String.isEmpty_iff s).mp hb)
  simp [strTruthy, he]

theorem strTruthy_none_eq_false : strTruthy none = false := rfl

theorem strTruthy_some_empty_eq_false : strTruthy (some "") = false := rfl

theorem handleResponse_raised (pe : PyErr) :
    isSentinelFailure (handleResponse (TransportResult.raised pe)) := by
  cases pe with
  | requestException m => exact ⟨_, rfl, append_ne_empty_left _ _ (by decide)⟩
  | jsonDecodeError m => exact ⟨_, rfl, append_ne_empty_left _ _ (by decide)⟩
  | other m => exact ⟨_, rfl, append_ne_empty_left _ _ (by decide)⟩

theorem handleResponse_parsed (j : Json) :
    handleResponse (TransportResult.parsed j) = j ∨
      isSentinelFailure (handleResponse (TransportResult.parsed j)) := by
  cases j with
  | obj fields =>
    by_cases hc : pyEqZero (lookupJ fields "code") = true
    · cases hd : pySubscript (Json.obj fields) "data" with
      | error m =>
        right
        refine ⟨"未知错误: " ++ m, ?_, append_ne_empty_left _ _ (by decide)⟩
        simp [handleResponse, hc, hd]
      | ok d =>
        cases hp : pySubscript d "pushid" with
        | error m =>
          right
          refine ⟨"未知错误: " ++ m, ?_, append_ne_empty_left _ _ (by decide)⟩
          simp [handleResponse, hc, hd, hp]
        | ok v =>
          left
          simp [handleResponse, hc, hd, hp]
    · left
      simp [handleResponse, hc]
  | null =>
    right
    exact ⟨_, rfl, append_ne_empty_left _ _ (append_ne_empty_left _ _ (by decide))⟩
  | bool b =>
    right
    exact ⟨_, rfl, append_ne_empty_left _ _ (append_ne_empty_left _ _ (by decide))⟩
  | num n =>
    right
    exact ⟨_, rfl, append_ne_empty_left _ _ (append_ne_empty_left _ _ (by decide))⟩
  | str s =>
    right
    exact ⟨_, rfl, append_ne_empty_left _ _ (append_ne_empty_left _ _ (by decide))⟩
  | arr xs =>
    right
    exact ⟨_, rfl, append_ne_empty_left _ _ (append_ne_empty_left _ _ (by decide))⟩

/-- C1: every transport/network error, response-decoding error, or other
local error raised during the send path is caught inside `send` and turned
into a returned dictionary with the sentinel code `-1` and a non-empty
message; `send` never propagates a raised error (it is a total function into
result dictionaries: on a raised exception it returns the sentinel failure
result, and on a parsed response it returns either the parsed dictionary or
a sentinel failure result). -/
theorem send_never_raises_local_errors (self : ServerChanNotifier) (title : String)
    (desp short channel : Option String) (noip : Bool) (openid : Option String)
    (http : List (String × String) → TransportResult) :
    (∀ pe : PyErr,
        http (send_payload self title desp short channel noip openid)
          = TransportResult.raised pe →
        isSentinelFailure (self.send title desp short channel noip openid http))
    ∧ (∀ j : Json,
        http (send_payload self title desp short channel noip openid)
          = TransportResult.parsed j →
        self.send title desp short channel noip openid http = j
          ∨ isSentinelFailure (self.send title desp short channel noip openid http)) := by
  constructor
  · intro pe hpe
    unfold ServerChanNotifier.send
    rw [hpe]
    exact handleResponse_raised pe
  · intro j hj
    unfold ServerChanNotifier.send
    rw [hj]
    exact handleResponse_parsed j

/-- Witness for C1: a simulated connection-refused transport failure yields
the sentinel failure result. -/
theorem send_never_raises_local_errors_witness :
    isSentinelFailure
      ((ServerChanNotifier.init "key" none).send "Title" none none none false none
        (fun _ => TransportResult.raised (PyErr.requestException "connection refused"))) :=
  (send_never_raises_local_errors (ServerChanNotifier.init "key" none) "Title"
      none none none false none
      (fun _ => TransportResult.raised (PyErr.requestException "connection refused"))).1
    (PyErr.requestException "connection refused") rfl

/-- Counterexample to C2 as stated: a parsed body with code 0 but no `data`
field is NOT returned unmodified — the logging access `result['data']['pushid']`
raises, the `except Exception` clause catches it, and `send` returns the
sentinel failure dictionary instead. -/
theorem send_code_zero_missing_pushid_cex :
    (ServerChanNotifier.init "key" none).send "Title" none none none false none
        (fun _ => TransportResult.parsed (Json.obj [("code", Json.num 0)]))
      ≠ Json.obj [("code", Json.num 0)] := by
  intro h
  have h2 : sentinelResult "未知错误: 'data'" = Json.obj [("code", Json.num 0)] := h
  simp [sentinelResult] at h2

/-- C2 (amended): for every HTTP response whose parsed JSON body has code 0
and whose `data` member contains a `pushid` entry, `send` returns the full
parsed mapping unmodified (after logging the push id), regardless of which
other fields the body contains. -/
theorem send_code_zero_with_pushid_returned_unmodified
    (self : ServerChanNotifier) (title : String)
    (desp short channel : Option String) (noip : Bool) (openid : Option String)
    (http : List (String × String) → TransportResult)
    (fields : List (String × Json)) (d p : Json)
    (hhttp : http (send_payload self title desp short channel noip openid)
      = TransportResult.parsed (Json.obj fields))
    (hcode : pyEqZero (lookupJ fields "code") = true)
    (hdata : pySubscript (Json.obj fields) "data" = Except.ok d)
    (hpush : pySubscript d "pushid" = Except.ok p) :
    self.send title desp short channel noip openid http = Json.obj fields := by
  unfold ServerChanNotifier.send
  rw [hhttp]
  simp [handleResponse, hcode, hdata, hpush]

/-- Witness for amended C2: a code-0 body with `data.pushid` and an extra
field is returned unmodified. -/
theorem send_code_zero_with_pushid_witness :
    (ServerChanNotifier.init "key" none).send "Title" none none none false none
        (fun _ => TransportResult.parsed (Json.obj
          [("code", Json.num 0),
           ("data", Json.obj [("pushid", Json.str "push-1")]),
           ("extra", Json.null)]))
      = Json.obj
          [("code", Json.num 0),
           ("data", Json.obj [("pushid", Json.str "push-1")]),
           ("extra", Json.null)] :=
  send_code_zero_with_pushid_returned_unmodified
    (ServerChanNotifier.init "key" none) "Title" none none none false none
    (fun _ => TransportResult.parsed (Json.obj
      [("code", Json.num 0),
       ("data", Json.obj [("pushid", Json.str "push-1")]),
       ("extra", Json.null)]))
    [("code", Json.num 0),
     ("data", Json.obj [("pushid", Json.str "push-1")]),
     ("extra", Json.null)]
    (Json.obj [("pushid", Json.str "push-1")]) (Json.str "push-1")
    rfl rfl rfl rfl

/-- C3: a transport-level success whose parsed body has a non-zero code is
returned to the caller as that exact parsed mapping, unchanged — it is not
converted into a sentinel failure result. -/
theorem send_nonzero_code_returned_unchanged
    (self : ServerChanNotifier) (title : String)
    (desp short channel : Option String) (noip : Bool) (openid : Option String)
    (http : List (String × String) → TransportResult)
    (fields : List (String × Json))
    (hhttp : http (send_payload self title desp short channel noip openid)
      = TransportResult.parsed (Json.obj fields))
    (hcode : pyEqZero (lookupJ fields "code") = false) :
    self.send title desp short channel noip openid http = Json.obj fields := by
  unfold ServerChanNotifier.send
  rw [hhttp]
  simp [handleResponse, hcode]

/-- Witness for C3: the provider failure body
`{"code": 1, "message": "invalid key"}` comes back unchanged. -/
theorem send_nonzero_code_witness :
    (ServerChanNotifier.init "key" none).send "Title" none none none false none
        (fun _ => TransportResult.parsed (Json.obj
          [("code", Json.num 1), ("message", Json.str "invalid key")]))
      = Json.obj [("code", Json.num 1), ("message", Json.str "invalid key")] :=
  send_nonzero_code_returned_unchanged
    (ServerChanNotifier.init "key" none) "Title" none none none false none
    (fun _ => TransportResult.parsed (Json.obj
      [("code", Json.num 1), ("message", Json.str "invalid key")]))
    [("code", Json.num 1), ("message", Json.str "invalid key")]
    rfl rfl

/-- C4: the transmitted title is always exactly the first 32 characters of
the given title (so titles of 32 characters or fewer pass through unchanged),
and whenever a short summary is passed (a provided, non-empty string, i.e.
truthy so that the field is transmitted at all), the transmitted short value
is exactly its first 64 characters; truncation is silent — the field is
simply built that way, no error path exists. -/
theorem send_truncates_title_and_short (self : ServerChanNotifier) (title : String)
    (desp short channel : Option String) (noip : Bool) (openid : Option String) :
    lookupS (send_payload self title desp short channel noip openid) "title"
        = some (title.take 32)
    ∧ (title.length ≤ 32 →
        lookupS (send_payload self title desp short channel noip openid) "title"
          = some title)
    ∧ (∀ s : String, short = some s → s ≠ "" →
        lookupS (send_payload self title desp short channel noip openid) "short"
          = some (s.take 64)) := by
  refine ⟨?_, ?_, ?_⟩
  · simp [send_payload, lookupS]
  · intro hle
    simp [send_payload, lookupS, take_of_length_le title 32 hle]
  · intro s hs hne
    subst hs
    have hts : strTruthy (some s) = true := strTruthy_some_of_ne s hne
    by_cases hd : strTruthy desp = true <;>
      simp [send_payload, lookupS, hd, hts]

/-- Witness for C4: a 33-character title is cut to its first 32 characters, a
28-character title passes unchanged, and a 70-character short summary is cut
to its first 64 characters. -/
theorem send_truncates_title_and_short_witness :
    lookupS (send_payload (ServerChanNotifier.init "key" none)
        "abcdefghijklmnopqrstuvwxyz0123456" none none none false none) "title"
      = some "abcdefghijklmnopqrstuvwxyz012345"
    ∧ lookupS (send_payload (ServerChanNotifier.init "key" none)
        "abcdefghijklmnopqrstuvwxyz01" none none none false none) "title"
      = some "abcdefghijklmnopqrstuvwxyz01"
    ∧ lookupS (send_payload (ServerChanNotifier.init "key" none) "t" none
        (some "0123456789012345678901234567890123456789012345678901234567890123456789")
        none false none) "short"
      = some "0123456789012345678901234567890123456789012345678901234567890123" := by
  refine ⟨?_, ?_, ?_⟩
  · have h := (send_truncates_title_and_short (ServerChanNotifier.init "key" none)
      "abcdefghijklmnopqrstuvwxyz0123456" none none none false none).1
    rw [h]
    decide
  · exact (send_truncates_title_and_short (ServerChanNotifier.init "key" none)
      "abcdefghijklmnopqrstuvwxyz01" none none none false none).2.1 (by decide)
  · have h := (send_truncates_title_and_short (ServerChanNotifier.init "key" none)
      "t" none
      (some "0123456789012345678901234567890123456789012345678901234567890123456789")
      none false none).2.2
      "0123456789012345678901234567890123456789012345678901234567890123456789"
      rfl (by decide)
    rw [h]
    decide

/-- C5: channel resolution — a provided (truthy) per-call channel C is
transmitted as the channel field; with no per-call channel, a configured
(truthy) default D is transmitted; with neither, no channel field appears in
the payload. -/
theorem send_channel_resolution (self : ServerChanNotifier) (title : String)
    (desp short channel : Option String) (noip : Bool) (openid : Option String) :
    (∀ c : String, channel = some c → c ≠ "" →
        lookupS (send_payload self title desp short channel noip openid) "channel"
          = some c)
    ∧ (channel = none → ∀ d : String, self.default_channel = some d → d ≠ "" →
        lookupS (send_payload self title desp short channel noip openid) "channel"
          = some d)
    ∧ (channel = none → self.default_channel = none →
        lookupS (send_payload self title desp short channel noip openid) "channel"
          = none) := by
  refine ⟨?_, ?_, ?_⟩
  · intro c hc hne
    subst hc
    have htc : strTruthy (some c) = true := strTruthy_some_of_ne c hne
    by_cases hd : strTruthy desp = true <;>
    by_cases hs : strTruthy short = true <;>
      simp [send_payload, lookupS, hd, hs, htc]
  · intro hc d hdc hne
    subst hc
    have htd : strTruthy (some d) = true := strTruthy_some_of_ne d hne
    by_cases hd : strTruthy desp = true <;>
    by_cases hs : strTruthy short = true <;>
      simp [send_payload, lookupS, hd, hs, hdc, htd, strTruthy_none_eq_false]
  · intro hc hdc
    subst hc
    by_cases hd : strTruthy desp = true <;>
    by_cases hs : strTruthy short = true <;>
    by_cases hn : noip = true <;>
    by_cases ho : strTruthy openid = true <;>
      simp [send_payload, lookupS, hd, hs, hn, ho, hdc, strTruthy_none_eq_false]

/-- Witness for C5: per-call channel wins, else the configured default, else
no channel field. -/
theorem send_channel_resolution_witness :
    lookupS (send_payload (ServerChanNotifier.init "key" (some "9")) "t" none none
        (some "4") false none) "channel" = some "4"
    ∧ lookupS (send_payload (ServerChanNotifier.init "key" (some "9")) "t" none none
        none false none) "channel" = some "9"
    ∧ lookupS (send_payload (ServerChanNotifier.init "key" none) "t" none none
        none false none) "channel" = none := by
  refine ⟨?_, ?_, ?_⟩
  · exact (send_channel_resolution (ServerChanNotifier.init "key" (some "9")) "t"
      none none (some "4") false none).1 "4" rfl (by decide)
  · exact (send_channel_resolution (ServerChanNotifier.init "key" (some "9")) "t"
      none none none false none).2.1 rfl "9" rfl (by decide)
  · exact (send_channel_resolution (ServerChanNotifier.init "key" none) "t"
      none none none false none).2.2 rfl rfl

/-- C6: when `noip` is true the payload carries the noip field with the fixed
marker value `"1"`; when `noip` is false the payload has no noip field at
all. -/
theorem send_noip_marker (self : ServerChanNotifier) (title : String)
    (desp short channel : Option String) (noip : Bool) (openid : Option String) :
    lookupS (send_payload self title desp short channel noip openid) "noip"
      = (if noip then some "1" else none) := by
  by_cases hd : strTruthy desp = true <;>
  by_cases hs : strTruthy short = true <;>
  by_cases hc : strTruthy channel = true <;>
  by_cases hdc : strTruthy self.default_channel = true <;>
  by_cases hn : noip = true <;>
  by_cases ho : strTruthy openid = true <;>
    simp [send_payload, lookupS, hd, hs, hc, hdc, hn, ho]

/-- C10: an optional string field (description, short summary, per-call
channel, or carbon-copy recipient) explicitly provided as the empty string is
treated exactly as if it were absent — with the other arguments arbitrary,
the payload is identical to the one built with that field absent (so in
particular an empty per-call channel falls back to the configured default
channel rather than transmitting an empty channel), while the title field is
present even for the empty title. -/
theorem send_payload_empty_string_optionals (self : ServerChanNotifier)
    (title : String) (desp short channel : Option String) (noip : Bool)
    (openid : Option String) :
    send_payload self title (some "") short channel noip openid
        = send_payload self title none short channel noip openid
    ∧ send_payload self title desp (some "") channel noip openid
        = send_payload self title desp none channel noip openid
    ∧ send_payload self title desp short (some "") noip openid
        = send_payload self title desp short none noip openid
    ∧ send_payload self title desp short channel noip (some "")
        = send_payload self title desp short channel noip none
    ∧ (∀ d : String, self.default_channel = some d → d ≠ "" →
        lookupS (send_payload self title desp short (some "") noip openid)
            "channel"
          = some d)
    ∧ lookupS (send_payload self "" desp short channel noip openid) "title"
        = some "" := by
  refine ⟨?_, ?_, ?_, ?_, ?_, ?_⟩
  · simp [send_payload, strTruthy_some_empty_eq_false, strTruthy_none_eq_false]
  · simp [send_payload, strTruthy_some_empty_eq_false, strTruthy_none_eq_false]
  · simp [send_payload, strTruthy_some_empty_eq_false, strTruthy_none_eq_false]
  · simp [send_payload, strTruthy_some_empty_eq_false, strTruthy_none_eq_false]
  · intro d hdc hne
    have htd : strTruthy (some d) = true := strTruthy_some_of_ne d hne
    by_cases hd : strTruthy desp = true <;>
    by_cases hs : strTruthy short = true <;>
      simp [send_payload, lookupS, strTruthy_some_empty_eq_false, hdc, htd, hd, hs]
  · simp [send_payload, lookupS]
    decide

/-- Witness for C10: with the other optional fields mixed (some present, some
absent), an empty description is dropped from the payload, an empty
per-call channel falls back to the configured default, and the empty title is
still transmitted. -/
theorem send_payload_empty_string_optionals_witness :
    send_payload (ServerChanNotifier.init "key" none) "t"
        (some "") (some "hello") none false (some "oid")
      = send_payload (ServerChanNotifier.init "key" none) "t"
        none (some "hello") none false (some "oid")
    ∧ lookupS (send_payload (ServerChanNotifier.init "key" (some "9")) "t"
        (some "body") none (some "") true none) "channel" = some "9"
    ∧ lookupS (send_payload (ServerChanNotifier.init "key" none) ""
        (some "body") none none false none) "title" = some "" := by
  refine ⟨?_, ?_, ?_⟩
  · exact (send_payload_empty_string_optionals (ServerChanNotifier.init "key" none)
      "t" none (some "hello") none false (some "oid")).1
  · exact (send_payload_empty_string_optionals
      (ServerChanNotifier.init "key" (some "9")) "t" (some "body") none none true
      none).2.2.2.2.1 "9" rfl (by decide)
  · exact (send_payload_empty_string_optionals (ServerChanNotifier.init "key" none)
      "x" (some "body") none none false none).2.2.2.2.2

/-- C7: evaluated at the same timestamp, `notify_completion` with
`success = true` and no message builds exactly the title and body of
`notify_success` with the same task name and execution time and no additional
info, and with `success = false` and no message it builds exactly the title
and body of `notify_error` with the `"未知错误"` ("unknown error") placeholder
as the error message and the same execution time. -/
theorem notify_completion_dispatch (task_name now : String)
    (execution_time : Option String) :
    notify_completion_message task_name now true execution_time none
        = notify_success_message task_name now execution_time none
    ∧ notify_completion_message task_name now false execution_time none
        = notify_error_message task_name now "未知错误" execution_time :=
  ⟨rfl, rfl⟩

theorem foldl_gstep_gets (post : List GEvent) (st : Option ServerChanNotifier)
    (h : allGets post = true) : post.foldl gstep st = st := by
  induction post generalizing st with
  | nil => rfl
  | cons e rest ih =>
    cases e with
    | get => exact ih st (by simpa [allGets, GEvent.isGet] using h)
    | init k dc => simp [allGets, GEvent.isGet] at h

theorem foldl_gstep_some (evts : List GEvent) (n : ServerChanNotifier) :
    ∃ m, evts.foldl gstep (some n) = some m := by
  induction evts generalizing n with
  | nil => exact ⟨n, rfl⟩
  | cons e rest ih =>
    cases e with
    | get => exact ih n
    | init k dc => exact ih (ServerChanNotifier.init k dc)

theorem runEvents_eq_none_iff (evts : List GEvent) :
    runEvents evts = none ↔ allGets evts = true := by
  unfold runEvents
  induction evts with
  | nil => simp [allGets]
  | cons e rest ih =>
    cases e with
    | get => simpa [allGets, GEvent.isGet] using ih
    | init k dc =>
      obtain ⟨m, hm⟩ := foldl_gstep_some rest (ServerChanNotifier.init k dc)
      have hl : List.foldl gstep (gstep none (GEvent.init k dc)) rest = some m := hm
      simp [List.foldl_cons, hl, allGets, GEvent.isGet]

/-- C9: `get_global_notifier` raises the configuration error exactly when it
runs before any `init_global_notifier` call has stored an instance; once some
`init_global_notifier` call has run (followed only by reads), every
`get_global_notifier` call returns the very instance that call created and
returned. -/
theorem get_global_notifier_spec (evts : List GEvent) :
    (get_global_notifier (runEvents evts)
        = Except.error "全局通知器未初始化，请先调用 init_global_notifier()"
      ↔ allGets evts = true)
    ∧ ∀ (pre : List GEvent) (k : String) (dc : Option String) (post : List GEvent),
        allGets post = true →
        get_global_notifier (runEvents (pre ++ GEvent.init k dc :: post))
          = Except.ok (init_global_notifier k dc).2 := by
  constructor
  · rw [← runEvents_eq_none_iff]
    cases h : runEvents evts with
    | none => simp [h, get_global_notifier]
    | some n => simp [h, get_global_notifier]
  · intro pre k dc post hpost
    unfold runEvents
    rw [List.foldl_append, List.foldl_cons]
    have h1 : gstep (List.foldl gstep none pre) (GEvent.init k dc)
        = some (ServerChanNotifier.init k dc) := rfl
    rw [h1, foldl_gstep_gets post _ hpost]
    rfl

/-- Witness for C9: a lone `get_global_notifier` call fails with the
configuration error, and after one `init_global_notifier` call two subsequent
`get_global_notifier` calls both return the instance it created. -/
theorem get_global_notifier_spec_witness :
    get_global_notifier (runEvents [GEvent.get])
        = Except.error "全局通知器未初始化，请先调用 init_global_notifier()"
    ∧ get_global_notifier
        (runEvents [GEvent.init "sendkey" none, GEvent.get, GEvent.get])
        = Except.ok (init_global_notifier "sendkey" none).2 := by
  constructor
  · exact (get_global_notifier_spec [GEvent.get]).1.mpr rfl
  · exact (get_global_notifier_spec []).2 [] "sendkey" none [GEvent.get, GEvent.get] rfl

/-- C8: when the wrapped callable raises, the wrapper makes exactly one
failure-notification attempt whose body contains the stringified error, and
then the original error propagates to the caller unchanged; when the callable
returns normally, the wrapper returns the callable's original result
unchanged. -/
theorem task_notifier_wrapper_behaviour (E A : Type) (strE : E → String)
    (task_name : Option String) (func_name now elapsed : String) (e : E) (a : A) :
    (task_notifier_run strE task_name func_name now elapsed (Except.error e : Except E A)).1
        = Except.error e
    ∧ (task_notifier_run strE task_name func_name now elapsed (Except.error e : Except E A)).2.length
        = 1
    ∧ (∃ t pre post,
        (task_notifier_run strE task_name func_name now elapsed (Except.error e : Except E A)).2
          = [NotificationAttempt.failure t (pre ++ (strE e ++ post))])
    ∧ (task_notifier_run strE task_name func_name now elapsed (Except.ok a)).1
        = Except.ok a := by
  refine ⟨rfl, rfl, ⟨notify_error_title (pyOrElse task_name func_name),
    "\n## ⚠️ 任务执行失败\n\n**任务名称**: " ++ pyOrElse task_name func_name
      ++ "\n\n**失败时间**: " ++ now ++ "\n\n**错误信息**: ",
    "\n" ++ execTimeSuffix (some elapsed), ?_⟩, rfl⟩
  simp [task_notifier_run, notify_error_desp, string_append_assoc]
